import Mathlib

/-!
Shallow embedding of the `fedora` package of disadis (src/unnamed/part_000):
the datastream-access layer over a Fedora Commons repository.

The embedding models:
  * the value types `ContentInfo` and `DsInfo` and the error vocabulary;
  * the remote client `remoteFedora` (`NewRemote`, `GetDatastream`,
    `GetDatastreamInfo`), with the HTTP transport passed in explicitly as a
    function from request URL to outcome, and with the handling of the
    response body instrumented by a `bodyClosed` flag recording whether the
    implementation closed the body before returning;
  * the derived version number `DsInfo.Version` together with the pieces of
    the Go standard library it uses (`strings.LastIndex` on the `.`
    separator, `strconv.Atoi` with its 64-bit range check);
  * the in-memory test double `TestFedora` (`Set`, `GetDatastream`,
    `GetDatastreamInfo`), with the Go map embedded as an association list
    updated in place.

Go's `xml.Decoder.Decode(&info)` fills the fields of `info` incrementally
while parsing and can leave it partially populated when it returns an
error; the decoder's outcome is therefore modelled as an environment-supplied
pair of a (possibly partial) `DsInfo` and an optional error.
-/

/-- Error vocabulary of the fedora package: the two exported sentinel errors,
the generic error carrying the numeric status code built by `fmt.Errorf`,
a network-level failure from `http.Get`, and an XML decode failure. -/
inductive FedoraErr where
  | notFound
  | notAuthorized
  | statusErr (code : Nat)
  | netErr (msg : String)
  | decodeErr (msg : String)
deriving DecidableEq, Repr

/-- ContentInfo: basic metadata about a datastream, from response headers.
All fields default to the empty string (Go zero value, meaning unknown). -/
structure ContentInfo where
  type : String := ""
  length : String := ""
  disposition : String := ""
  md5 : String := ""
  sha256 : String := ""
deriving DecidableEq, Repr

/-- DsInfo: datastream metadata decoded from the Fedora XML document.
All fields default to the empty string (Go zero value). -/
structure DsInfo where
  label : String := ""
  versionID : String := ""
  state : String := ""
  checksum : String := ""
  mimeType : String := ""
  location : String := ""
  locationType : String := ""
  size : String := ""
deriving DecidableEq, Repr

/-- An HTTP response as seen by the client: status code, header lookup
(Go `r.Header.Get`, empty string when absent), the body's bytes, and the
outcome of XML-decoding the body into a `DsInfo` (a possibly partially
populated struct together with an optional decode error). -/
structure HttpResponse where
  statusCode : Nat
  headers : String → String
  bodyBytes : List Nat
  bodyXml : DsInfo × Option String

/-- Outcome of `http.Get`: a network-level error, or a response. -/
inductive HttpOutcome where
  | netFail (msg : String)
  | resp (r : HttpResponse)

/-- The remote client: base URL (`hostpath`) and namespace prefix. -/
structure remoteFedora where
  hostpath : String
  nspace : String
deriving DecidableEq, Repr

/-- NewRemote: wraps the base URL and namespace, appending a trailing `/` to
the base URL when its last byte is not `/`.  On the empty string the Go code
indexes `fedoraPath[len-1] = fedoraPath[-1]`, an out-of-range fault, modelled
as `none`. -/
def NewRemote (fedoraPath : String) (nspace : String) : Option remoteFedora :=
  match fedoraPath.data.getLast? with
  | none => none
  | some c =>
      some { hostpath := if c ≠ '/' then fedoraPath ++ "/" else fedoraPath
             nspace := nspace }

/-- Request URL built by `remoteFedora.GetDatastream` (the local `path`
variable): plain concatenation, no duplicate-slash collapsing. -/
def contentPath (rf : remoteFedora) (id dsname : String) : String :=
  rf.hostpath ++ "objects/" ++ rf.nspace ++ id ++ "/datastreams/" ++ dsname ++ "/content"

/-- Request URL built by `remoteFedora.GetDatastreamInfo`. -/
def infoPath (rf : remoteFedora) (id dsname : String) : String :=
  rf.hostpath ++ "objects/" ++ rf.nspace ++ id ++ "/datastreams/" ++ dsname ++ "?format=xml"

/-- Result of `remoteFedora.GetDatastream`: the stream handed to the caller
(`none` models Go's nil `io.ReadCloser`; a successful stream reads to the
response body's bytes), the `ContentInfo`, the error, and whether the
implementation closed the response body before returning. -/
structure StreamResult where
  stream : Option (List Nat)
  info : ContentInfo
  err : Option FedoraErr
  bodyClosed : Bool
deriving DecidableEq, Repr

/-- remoteFedora.GetDatastream: issue a GET to `contentPath`; on network
error return the zero info and the error; on a non-200 status close the body
and map 404/401/other; on 200 fill `ContentInfo` from the headers and hand
the open body to the caller. -/
def remoteFedora.GetDatastream (rf : remoteFedora) (net : String → HttpOutcome)
    (id dsname : String) : StreamResult :=
  match net (contentPath rf id dsname) with
  | .netFail msg =>
      { stream := none, info := {}, err := some (.netErr msg), bodyClosed := false }
  | .resp r =>
      if r.statusCode ≠ 200 then
        { stream := none, info := {},
          err := some (if r.statusCode = 404 then .notFound
                       else if r.statusCode = 401 then .notAuthorized
                       else .statusErr r.statusCode),
          bodyClosed := true }
      else
        { stream := some r.bodyBytes,
          info := { type := r.headers "Content-Type",
                    length := r.headers "Content-Length",
                    disposition := r.headers "Content-Disposition",
                    md5 := r.headers "X-Content-Md5",
                    sha256 := r.headers "X-Content-Sha256" },
          err := none, bodyClosed := false }

/-- Result of `remoteFedora.GetDatastreamInfo`: the `DsInfo`, the error, and
whether the response body was closed before returning. -/
structure InfoResult where
  info : DsInfo
  err : Option FedoraErr
  bodyClosed : Bool
deriving DecidableEq, Repr

/-- remoteFedora.GetDatastreamInfo: issue a GET to `infoPath`; on network
error return the zero info and the error; on a non-200 status close the body
and map 404/401/other; on 200 decode the body's XML into a `DsInfo`, close
the body, normalize the checksum sentinel `"none"` to the empty string, and
return the (possibly partially decoded) info together with any decode
error. -/
def remoteFedora.GetDatastreamInfo (rf : remoteFedora) (net : String → HttpOutcome)
    (id dsname : String) : InfoResult :=
  match net (infoPath rf id dsname) with
  | .netFail msg =>
      { info := {}, err := some (.netErr msg), bodyClosed := false }
  | .resp r =>
      if r.statusCode ≠ 200 then
        { info := {},
          err := some (if r.statusCode = 404 then .notFound
                       else if r.statusCode = 401 then .notAuthorized
                       else .statusErr r.statusCode),
          bodyClosed := true }
      else
        let info0 := r.bodyXml.1
        let info1 := if info0.checksum = "none" then { info0 with checksum := "" } else info0
        { info := info1, err := r.bodyXml.2.map .decodeErr, bodyClosed := true }

/-- Decimal value of a list of digit characters, most significant first
(the accumulation loop inside `strconv.Atoi`). -/
def digitsVal (l : List Char) : Nat :=
  l.foldl (fun acc c => acc * 10 + (c.toNat - '0'.toNat)) 0

/-- Digit run of `strconv.Atoi` after the optional sign: empty or any
non-digit is a syntax error; a value outside the 64-bit int range is a range
error (Go `int` is 64 bits here). -/
def atoiDigits (ds : List Char) (neg : Bool) : Option Int :=
  if ds = [] then none
  else if ds.all (fun c => c.isDigit) then
    let n := digitsVal ds
    if neg then (if n ≤ 9223372036854775808 then some (-(n : Int)) else none)
    else (if n ≤ 9223372036854775807 then some (n : Int) else none)
  else none

/-- Character-level body of `strconv.Atoi`: optional single leading sign,
then the digit run. -/
def atoiChars : List Char → Option Int
  | [] => none
  | c :: rest =>
      if c = '-' then atoiDigits rest true
      else if c = '+' then atoiDigits rest false
      else atoiDigits (c :: rest) false

/-- strconv.Atoi: optional single leading sign, then a non-empty digit run,
64-bit range-checked; `none` models a non-nil error. -/
def Atoi (s : String) : Option Int :=
  atoiChars s.data

/-- Characters after the last `.` of a list, `none` when no `.` occurs
(`strings.LastIndex(s, ".")` followed by the byte slice `s[i+1:]`; `.` is a
single-byte character, so the byte suffix is the character suffix). -/
def afterLastDot : List Char → Option (List Char)
  | [] => none
  | c :: rest =>
      match afterLastDot rest with
      | some s => some s
      | none => if c = '.' then some rest else none

/-- DsInfo.Version: the integer suffix of `VersionID` after its last `.`,
or -1 when there is no `.` or `strconv.Atoi` fails on the suffix. -/
def DsInfo.Version (info : DsInfo) : Int :=
  match afterLastDot info.versionID.data with
  | none => -1
  | some suf =>
      match Atoi (String.mk suf) with
      | none => -1
      | some version => version

/-- The `dsPair` stored by `TestFedora`: metadata plus content bytes. -/
structure dsPair where
  info : DsInfo
  content : List Nat
deriving DecidableEq, Repr

/-- Lookup in the embedded Go map (association list, at most one entry per
key when built by `mapSet`). -/
def mapGet : List (String × dsPair) → String → Option dsPair
  | [], _ => none
  | (k', v') :: rest, k => if k' = k then some v' else mapGet rest k

/-- Update in the embedded Go map: replace the entry under the key if
present, else append; no history retained. -/
def mapSet : List (String × dsPair) → String → dsPair → List (String × dsPair)
  | [], k, v => [(k, v)]
  | (k', v') :: rest, k, v =>
      if k' = k then (k, v) :: rest else (k', v') :: mapSet rest k v

/-- TestFedora: in-memory store from composite key `id + "/" + dsname` to a
`dsPair`. -/
structure TestFedora where
  data : List (String × dsPair)
deriving DecidableEq, Repr

/-- NewTestFedora: the empty store. -/
def NewTestFedora : TestFedora := { data := [] }

/-- TestFedora.Set: backfill empty fields of `info` (State, VersionID,
Location — using the possibly backfilled VersionID —, LocationType, Size)
and store the pair under `id + "/" + dsname`. -/
def TestFedora.Set (tf : TestFedora) (id dsname : String) (info : DsInfo)
    (value : List Nat) : TestFedora :=
  let info := if info.state = "" then { info with state := "A" } else info
  let info := if info.versionID = "" then { info with versionID := dsname ++ ".0" } else info
  let info := if info.location = "" then
      { info with location := id ++ "+" ++ dsname ++ "+" ++ info.versionID } else info
  let info := if info.locationType = "" then { info with locationType := "INTERNAL_ID" } else info
  let info := if info.size = "" then { info with size := toString value.length } else info
  { data := mapSet tf.data (id ++ "/" ++ dsname) { info := info, content := value } }

/-- TestFedora.GetDatastream: NotFound with zero results when the composite
key is absent; otherwise the stored bytes as a stream, `Type` fixed to
`"text/plain"` and `Length` copied from the stored `DsInfo.Size`. -/
def TestFedora.GetDatastream (tf : TestFedora) (id dsname : String) :
    Option (List Nat) × ContentInfo × Option FedoraErr :=
  match mapGet tf.data (id ++ "/" ++ dsname) with
  | none => (none, {}, some .notFound)
  | some v => (some v.content, { type := "text/plain", length := v.info.size }, none)

/-- TestFedora.GetDatastreamInfo: NotFound with a zero `DsInfo` when the
composite key is absent; otherwise the stored `DsInfo` verbatim. -/
def TestFedora.GetDatastreamInfo (tf : TestFedora) (id dsname : String) :
    DsInfo × Option FedoraErr :=
  match mapGet tf.data (id ++ "/" ++ dsname) with
  | none => ({}, some .notFound)
  | some v => (v.info, none)

/-! ### Helper lemmas -/

theorem mapGet_mapSet_self (m : List (String × dsPair)) (k : String) (v : dsPair) :
    mapGet (mapSet m k v) k = some v := by
  induction m with
  | nil => simp [mapSet, mapGet]
  | cons p rest ih =>
      obtain ⟨k', v'⟩ := p
      by_cases h : k' = k <;> simp [mapSet, mapGet, h, ih]

theorem afterLastDot_eq_none (l : List Char) (h : '.' ∉ l) : afterLastDot l = none := by
  induction l with
  | nil => rfl
  | cons c rest ih =>
      simp only [List.mem_cons, not_or] at h
      simp [afterLastDot, ih h.2, Ne.symm h.1]

theorem afterLastDot_append (pre suf : List Char) (h : '.' ∉ suf) :
    afterLastDot (pre ++ '.' :: suf) = some suf := by
  induction pre with
  | nil => simp [afterLastDot, afterLastDot_eq_none suf h]
  | cons c rest ih => simp [afterLastDot, ih]

theorem atoiDigits_pos (ds : List Char) (hne : ds ≠ [])
    (hdig : ∀ x ∈ ds, x.isDigit) (hle : digitsVal ds ≤ 9223372036854775807) :
    atoiDigits ds false = some ((digitsVal ds : Int)) := by
  have hall : ds.all (fun c => c.isDigit) = true := List.all_eq_true.mpr hdig
  simp [atoiDigits, hne, hall, hle]

theorem Atoi_all_digits (ds : List Char) (hne : ds ≠ [])
    (hdig : ∀ x ∈ ds, x.isDigit) (hle : digitsVal ds ≤ 9223372036854775807) :
    Atoi (String.mk ds) = some ((digitsVal ds : Int)) := by
  cases ds with
  | nil => exact absurd rfl hne
  | cons c rest =>
      have hc : c.isDigit := hdig c (List.mem_cons_self c rest)
      have hcm : ¬c = '-' := by intro h; rw [h] at hc; exact absurd hc (by decide)
      have hcp : ¬c = '+' := by intro h; rw [h] at hc; exact absurd hc (by decide)
      show atoiChars (c :: rest) = some ((digitsVal (c :: rest) : Int))
      simp only [atoiChars]
      rw [if_neg hcm, if_neg hcp]
      exact atoiDigits_pos _ (by simp) hdig hle

theorem Version_eq_neg_one_of_no_dot (info : DsInfo) (h : '.' ∉ info.versionID.data) :
    info.Version = -1 := by
  unfold DsInfo.Version
  rw [afterLastDot_eq_none _ h]

theorem Version_eq_of_atoi_some (info : DsInfo) (pre suf : List Char) (v : Int)
    (hdata : info.versionID.data = pre ++ '.' :: suf) (hdot : '.' ∉ suf)
    (ha : Atoi (String.mk suf) = some v) : info.Version = v := by
  unfold DsInfo.Version
  rw [hdata, afterLastDot_append pre suf hdot]
  simp [ha]

theorem Version_eq_neg_one_of_atoi_none (info : DsInfo) (pre suf : List Char)
    (hdata : info.versionID.data = pre ++ '.' :: suf) (hdot : '.' ∉ suf)
    (ha : Atoi (String.mk suf) = none) : info.Version = -1 := by
  unfold DsInfo.Version
  rw [hdata, afterLastDot_append pre suf hdot]
  simp [ha]

example : DsInfo.Version { versionID := "content.7" } = 7 := by decide
example : DsInfo.Version { versionID := "content" } = -1 := by decide
example : DsInfo.Version { versionID := "content.x" } = -1 := by decide
example : DsInfo.Version { versionID := "a.b.12" } = 12 := by decide
example : Atoi "-5" = some (-5) := by decide
example : Atoi "+" = none := by decide
example :
    (NewTestFedora.Set "a" "b" {} [7, 8]).GetDatastream "a" "b" =
      (some [7, 8],
       { type := "text/plain", length := "2" }, none) := by decide

/-! ### Claim theorems -/

/-- C1: for every remote-client `GetDatastream` or `GetDatastreamInfo` call
whose HTTP request completes with a non-success (non-200) status, the
response body is closed before the call returns, no content stream is handed
to the caller, and the error is `notFound` for 404, `notAuthorized` for 401,
and the generic error carrying the numeric status code otherwise. -/
theorem c1_nonsuccess_status_mapping
    (rf : remoteFedora) (net : String → HttpOutcome) (id dsname : String)
    (r : HttpResponse) (hstatus : r.statusCode ≠ 200) :
    (net (contentPath rf id dsname) = .resp r →
      (rf.GetDatastream net id dsname).bodyClosed = true
      ∧ (rf.GetDatastream net id dsname).stream = none
      ∧ (r.statusCode = 404 →
          (rf.GetDatastream net id dsname).err = some .notFound)
      ∧ (r.statusCode = 401 →
          (rf.GetDatastream net id dsname).err = some .notAuthorized)
      ∧ (r.statusCode ≠ 404 → r.statusCode ≠ 401 →
          (rf.GetDatastream net id dsname).err = some (.statusErr r.statusCode)))
    ∧ (net (infoPath rf id dsname) = .resp r →
      (rf.GetDatastreamInfo net id dsname).bodyClosed = true
      ∧ (rf.GetDatastreamInfo net id dsname).info = ({} : DsInfo)
      ∧ (r.statusCode = 404 →
          (rf.GetDatastreamInfo net id dsname).err = some .notFound)
      ∧ (r.statusCode = 401 →
          (rf.GetDatastreamInfo net id dsname).err = some .notAuthorized)
      ∧ (r.statusCode ≠ 404 → r.statusCode ≠ 401 →
          (rf.GetDatastreamInfo net id dsname).err = some (.statusErr r.statusCode))) := by
  constructor
  · intro hnet
    simp only [remoteFedora.GetDatastream, hnet, if_pos hstatus]
    refine ⟨by trivial, by trivial, fun h404 => ?_, fun h401 => ?_, fun h404 h401 => ?_⟩
    · simp [h404]
    · simp [h401]
    · simp [if_neg h404, if_neg h401]
  · intro hnet
    simp only [remoteFedora.GetDatastreamInfo, hnet, if_pos hstatus]
    refine ⟨by trivial, by trivial, fun h404 => ?_, fun h401 => ?_, fun h404 h401 => ?_⟩
    · simp [h404]
    · simp [h401]
    · simp [if_neg h404, if_neg h401]

/-- Witness for C1 at a concrete 500 response. -/
theorem c1_nonsuccess_status_mapping_witness :
    ((⟨"b/", "n:"⟩ : remoteFedora).GetDatastream
        (fun _ => .resp ⟨500, fun _ => "", [], ({}, none)⟩) "x" "y").bodyClosed = true
    ∧ ((⟨"b/", "n:"⟩ : remoteFedora).GetDatastream
        (fun _ => .resp ⟨500, fun _ => "", [], ({}, none)⟩) "x" "y").err
        = some (.statusErr 500)
    ∧ ((⟨"b/", "n:"⟩ : remoteFedora).GetDatastreamInfo
        (fun _ => .resp ⟨500, fun _ => "", [], ({}, none)⟩) "x" "y").err
        = some (.statusErr 500) := by
  have h := c1_nonsuccess_status_mapping ⟨"b/", "n:"⟩
      (fun _ => .resp ⟨500, fun _ => "", [], ({}, none)⟩) "x" "y"
      ⟨500, fun _ => "", [], ({}, none)⟩ (by decide)
  exact ⟨(h.1 rfl).1, (h.1 rfl).2.2.2.2 (by decide) (by decide),
         (h.2 rfl).2.2.2.2 (by decide) (by decide)⟩

/-- C2 counterexample: a 200 response whose XML decode fails after having
populated `dsLabel` makes `GetDatastreamInfo` return a non-nil error together
with a partially populated (non-zero) `DsInfo`. -/
theorem c2_counterexample :
    ((⟨"b/", "n:"⟩ : remoteFedora).GetDatastreamInfo
        (fun _ => .resp ⟨200, fun _ => "", [],
            ({ label := "partial" }, some "unexpected EOF")⟩) "x" "y").err ≠ none
    ∧ ((⟨"b/", "n:"⟩ : remoteFedora).GetDatastreamInfo
        (fun _ => .resp ⟨200, fun _ => "", [],
            ({ label := "partial" }, some "unexpected EOF")⟩) "x" "y").info
        ≠ ({} : DsInfo) := by
  constructor <;> decide

/-- C2 (amended): `GetDatastream` never returns a partial result alongside an
error, and `GetDatastreamInfo` returns the zero `DsInfo` on a network-level
failure and on a non-success status; only the XML-decode-failure path of
`GetDatastreamInfo` may return a partially populated `DsInfo` with the
error. -/
theorem c2_zero_results_on_error
    (rf : remoteFedora) (net : String → HttpOutcome) (id dsname : String) :
    ((rf.GetDatastream net id dsname).err ≠ none →
      (rf.GetDatastream net id dsname).stream = none
      ∧ (rf.GetDatastream net id dsname).info = ({} : ContentInfo))
    ∧ (∀ msg, net (infoPath rf id dsname) = .netFail msg →
        (rf.GetDatastreamInfo net id dsname).info = ({} : DsInfo))
    ∧ (∀ r : HttpResponse, net (infoPath rf id dsname) = .resp r →
        r.statusCode ≠ 200 →
        (rf.GetDatastreamInfo net id dsname).info = ({} : DsInfo)) := by
  refine ⟨?_, ?_, ?_⟩
  · intro herr
    cases hnet : net (contentPath rf id dsname) with
    | netFail msg => simp [remoteFedora.GetDatastream, hnet]
    | resp r =>
        by_cases h : r.statusCode = 200
        · simp [remoteFedora.GetDatastream, hnet, h] at herr
        · simp [remoteFedora.GetDatastream, hnet, h]
  · intro msg hnet
    simp [remoteFedora.GetDatastreamInfo, hnet]
  · intro r hnet h
    simp [remoteFedora.GetDatastreamInfo, hnet, if_pos h]

/-- Witness for C2 (amended) at a concrete 404 response. -/
theorem c2_zero_results_on_error_witness :
    ((⟨"b/", "n:"⟩ : remoteFedora).GetDatastream
        (fun _ => .resp ⟨404, fun _ => "", [], ({}, none)⟩) "x" "y").stream = none
    ∧ ((⟨"b/", "n:"⟩ : remoteFedora).GetDatastreamInfo
        (fun _ => .resp ⟨404, fun _ => "", [], ({}, none)⟩) "x" "y").info
        = ({} : DsInfo) := by
  have h := c2_zero_results_on_error ⟨"b/", "n:"⟩
      (fun _ => .resp ⟨404, fun _ => "", [], ({}, none)⟩) "x" "y"
  exact ⟨(h.1 (by decide)).1,
         h.2.2 ⟨404, fun _ => "", [], ({}, none)⟩ rfl (by decide)⟩

/-- C3: `Version` is -1 when `VersionID` has no `.`; it is the decimal value
of the suffix after the last `.` when that suffix is a valid (in-range)
integer, and -1 when `Atoi` rejects the suffix; `"content.7"` gives 7,
`"content"` gives -1, `"content.x"` gives -1. -/
theorem c3_version_of_versionID :
    (∀ info : DsInfo, '.' ∉ info.versionID.data → info.Version = -1)
    ∧ (∀ (info : DsInfo) (pre suf : List Char),
        info.versionID.data = pre ++ '.' :: suf → '.' ∉ suf → suf ≠ [] →
        (∀ c ∈ suf, c.isDigit) → digitsVal suf ≤ 9223372036854775807 →
        info.Version = (digitsVal suf : Int))
    ∧ (∀ (info : DsInfo) (pre suf : List Char),
        info.versionID.data = pre ++ '.' :: suf → '.' ∉ suf →
        Atoi (String.mk suf) = none → info.Version = -1)
    ∧ DsInfo.Version { versionID := "content.7" } = 7
    ∧ DsInfo.Version { versionID := "content" } = -1
    ∧ DsInfo.Version { versionID := "content.x" } = -1 := by
  refine ⟨?_, ?_, ?_, by decide, by decide, by decide⟩
  · intro info h
    exact Version_eq_neg_one_of_no_dot info h
  · intro info pre suf hdata hdot hne hdig hle
    exact Version_eq_of_atoi_some info pre suf _ hdata hdot
      (Atoi_all_digits suf hne hdig hle)
  · intro info pre suf hdata hdot ha
    exact Version_eq_neg_one_of_atoi_none info pre suf hdata hdot ha

/-- Witness for C3 at the concrete version id `"v.12"` and a dotless id. -/
theorem c3_version_of_versionID_witness :
    DsInfo.Version { versionID := "v.12" } = 12
    ∧ DsInfo.Version { versionID := "nodots" } = -1 := by
  constructor
  · have h := c3_version_of_versionID.2.1 { versionID := "v.12" } ['v'] ['1', '2']
      (by decide) (by decide) (by decide) (by decide) (by decide)
    have e : digitsVal ['1', '2'] = 12 := by decide
    rw [e] at h
    exact_mod_cast h
  · exact c3_version_of_versionID.1 { versionID := "nodots" } (by decide)

/-- C4: on a 200 response whose XML body decodes without error, the returned
checksum is empty when the decoded checksum is the sentinel `"none"`, and is
the decoded value unchanged otherwise. -/
theorem c4_checksum_sentinel_normalization
    (rf : remoteFedora) (net : String → HttpOutcome) (id dsname : String)
    (r : HttpResponse) (info0 : DsInfo)
    (hnet : net (infoPath rf id dsname) = .resp r) (h200 : r.statusCode = 200)
    (hxml : r.bodyXml = (info0, none)) :
    (rf.GetDatastreamInfo net id dsname).err = none
    ∧ (rf.GetDatastreamInfo net id dsname).info.checksum =
        (if info0.checksum = "none" then "" else info0.checksum) := by
  by_cases hc : info0.checksum = "none" <;>
    simp [remoteFedora.GetDatastreamInfo, hnet, h200, hxml, hc]

/-- Witness for C4 at a concrete decoded checksum equal to the sentinel. -/
theorem c4_checksum_sentinel_normalization_witness :
    ((⟨"b/", "n:"⟩ : remoteFedora).GetDatastreamInfo
        (fun _ => .resp ⟨200, fun _ => "", [],
            ({ checksum := "none" }, none)⟩) "x" "y").info.checksum = "" := by
  have h := c4_checksum_sentinel_normalization ⟨"b/", "n:"⟩
      (fun _ => .resp ⟨200, fun _ => "", [], ({ checksum := "none" }, none)⟩)
      "x" "y" ⟨200, fun _ => "", [], ({ checksum := "none" }, none)⟩
      { checksum := "none" } rfl rfl rfl
  simpa using h.2

/-- C5 counterexample: `Set` with a non-empty `Size` of `"999"` and three
content bytes, followed by `GetDatastream`, yields `ContentInfo.Length`
`"999"`, not the decimal string of the content length. -/
theorem c5_counterexample :
    ((NewTestFedora.Set "a" "b" { size := "999" } [0, 0, 0]).GetDatastream
        "a" "b").2.1.length = "999"
    ∧ ((NewTestFedora.Set "a" "b" { size := "999" } [0, 0, 0]).GetDatastream
        "a" "b").2.1.length ≠ toString (([0, 0, 0] : List Nat).length) := by
  constructor <;> decide

/-- C5 (amended): `Set(id, name, info, bytes)` immediately followed by
`GetDatastream(id, name)` returns a stream reading exactly `bytes` (any prior
entry under the same key overwritten), no error, `ContentInfo.Type`
`"text/plain"`, and `ContentInfo.Length` equal to the stored `Size` — the
decimal string of `len(bytes)` when `info.Size` was empty, and `info.Size`
unchanged otherwise. -/
theorem c5_set_then_get_roundtrip (tf : TestFedora) (id dsname : String)
    (info : DsInfo) (value : List Nat) :
    ((tf.Set id dsname info value).GetDatastream id dsname).1 = some value
    ∧ ((tf.Set id dsname info value).GetDatastream id dsname).2.1.type = "text/plain"
    ∧ ((tf.Set id dsname info value).GetDatastream id dsname).2.1.length =
        (if info.size = "" then toString value.length else info.size)
    ∧ ((tf.Set id dsname info value).GetDatastream id dsname).2.2 = none := by
  by_cases h1 : info.state = "" <;> by_cases h2 : info.versionID = "" <;>
    by_cases h3 : info.location = "" <;> by_cases h4 : info.locationType = "" <;>
    by_cases h5 : info.size = "" <;>
    simp [TestFedora.GetDatastream, TestFedora.Set, mapGet_mapSet_self,
      h1, h2, h3, h4, h5]

/-- C6: `Set` backfills exactly the empty fields of `info` — State `"A"`,
VersionID `name + ".0"`, Location `id + "+" + name + "+" + VersionID` with
the possibly backfilled VersionID, LocationType `"INTERNAL_ID"`, Size the
decimal length of the content — leaving non-empty fields and the
never-backfilled fields unchanged; consequently `Set` with an unset
VersionID followed by `GetDatastreamInfo` yields VersionID `name + ".0"`
and `Version` 0. -/
theorem c6_set_backfills_defaults (tf : TestFedora) (id dsname : String)
    (info : DsInfo) (value : List Nat) :
    mapGet (tf.Set id dsname info value).data (id ++ "/" ++ dsname) =
      some { info := { label := info.label
                       versionID := if info.versionID = "" then dsname ++ ".0"
                         else info.versionID
                       state := if info.state = "" then "A" else info.state
                       checksum := info.checksum
                       mimeType := info.mimeType
                       location := if info.location = "" then
                           id ++ "+" ++ dsname ++ "+" ++
                             (if info.versionID = "" then dsname ++ ".0"
                              else info.versionID)
                         else info.location
                       locationType := if info.locationType = "" then "INTERNAL_ID"
                         else info.locationType
                       size := if info.size = "" then toString value.length
                         else info.size }
             content := value }
    ∧ (info.versionID = "" →
        ((tf.Set id dsname info value).GetDatastreamInfo id dsname).1.versionID =
          dsname ++ ".0"
        ∧ ((tf.Set id dsname info value).GetDatastreamInfo id dsname).1.Version = 0) := by
  have hstore : mapGet (tf.Set id dsname info value).data (id ++ "/" ++ dsname) =
      some { info := { label := info.label
                       versionID := if info.versionID = "" then dsname ++ ".0"
                         else info.versionID
                       state := if info.state = "" then "A" else info.state
                       checksum := info.checksum
                       mimeType := info.mimeType
                       location := if info.location = "" then
                           id ++ "+" ++ dsname ++ "+" ++
                             (if info.versionID = "" then dsname ++ ".0"
                              else info.versionID)
                         else info.location
                       locationType := if info.locationType = "" then "INTERNAL_ID"
                         else info.locationType
                       size := if info.size = "" then toString value.length
                         else info.size }
             content := value } := by
    by_cases h1 : info.state = "" <;> by_cases h2 : info.versionID = "" <;>
      by_cases h3 : info.location = "" <;> by_cases h4 : info.locationType = "" <;>
      by_cases h5 : info.size = "" <;>
      simp [TestFedora.Set, mapGet_mapSet_self, h1, h2, h3, h4, h5]
  refine ⟨hstore, fun h2 => ?_⟩
  have hres : ((tf.Set id dsname info value).GetDatastreamInfo id dsname).1.versionID =
      dsname ++ ".0" := by
    simp [TestFedora.GetDatastreamInfo, hstore, h2]
  refine ⟨hres, ?_⟩
  have hdata : ((tf.Set id dsname info value).GetDatastreamInfo id
      dsname).1.versionID.data = dsname.data ++ '.' :: ['0'] := by
    rw [hres, String.data_append]
  exact Version_eq_of_atoi_some _ dsname.data ['0'] 0 hdata (by decide) (by decide)

/-- Witness for C6 at a concrete empty store and default-valued `info`. -/
theorem c6_set_backfills_defaults_witness :
    ((NewTestFedora.Set "a" "b" {} []).GetDatastreamInfo "a" "b").1.versionID =
      "b" ++ ".0"
    ∧ ((NewTestFedora.Set "a" "b" {} []).GetDatastreamInfo "a" "b").1.Version = 0 :=
  (c6_set_backfills_defaults NewTestFedora "a" "b" {} []).2 rfl

/-- C7: when the composite key `id + "/" + dsname` is not registered in the
in-memory store, `GetDatastream` returns a nil stream, a zero `ContentInfo`
and `notFound`, and `GetDatastreamInfo` returns a zero `DsInfo` and
`notFound`. -/
theorem c7_absent_key_not_found (tf : TestFedora) (id dsname : String)
    (h : mapGet tf.data (id ++ "/" ++ dsname) = none) :
    tf.GetDatastream id dsname = (none, ({} : ContentInfo), some .notFound)
    ∧ tf.GetDatastreamInfo id dsname = (({} : DsInfo), some .notFound) := by
  constructor
  · simp [TestFedora.GetDatastream, h]
  · simp [TestFedora.GetDatastreamInfo, h]

/-- Witness for C7 at the empty store. -/
theorem c7_absent_key_not_found_witness :
    (⟨[]⟩ : TestFedora).GetDatastream "x" "y" =
      (none, ({} : ContentInfo), some .notFound)
    ∧ (⟨[]⟩ : TestFedora).GetDatastreamInfo "x" "y" =
      (({} : DsInfo), some .notFound) :=
  c7_absent_key_not_found ⟨[]⟩ "x" "y" rfl

/-- C8: for a non-empty base URL, `NewRemote` succeeds; the stored base path
is the supplied URL with a single `/` appended exactly when it did not
already end in one, so it always ends in `/`; the namespace is stored
verbatim; and `GetDatastream` depends on the transport only through its
value at exactly the string
`base ++ "objects/" ++ namespace ++ id ++ "/datastreams/" ++ name ++ "/content"`
(the GET is issued to exactly that concatenation, with no duplicate-slash
collapsing). -/
theorem c8_base_url_and_request_path (p ns : String) :
    (p ≠ "" → (NewRemote p ns).isSome)
    ∧ ∀ rf : remoteFedora, NewRemote p ns = some rf →
        rf.hostpath = (if p.data.getLast? = some '/' then p else p ++ "/")
        ∧ rf.hostpath.data.getLast? = some '/'
        ∧ rf.nspace = ns
        ∧ ∀ (net net' : String → HttpOutcome) (id dsname : String),
            net (rf.hostpath ++ "objects/" ++ ns ++ id ++ "/datastreams/" ++
                dsname ++ "/content")
              = net' (rf.hostpath ++ "objects/" ++ ns ++ id ++ "/datastreams/" ++
                dsname ++ "/content") →
            rf.GetDatastream net id dsname = rf.GetDatastream net' id dsname := by
  constructor
  · intro hp
    have hd : p.data ≠ [] := by
      intro h
      exact hp (by cases p with | mk l => simp_all)
    cases hLast : p.data.getLast? with
    | none => exact absurd (List.getLast?_eq_none_iff.mp hLast) hd
    | some c => simp [NewRemote, hLast]
  · intro rf hrf
    cases hLast : p.data.getLast? with
    | none => simp [NewRemote, hLast] at hrf
    | some c =>
        simp only [NewRemote, hLast] at hrf
        have hrf' : ({ hostpath := if c ≠ '/' then p ++ "/" else p
                       nspace := ns } : remoteFedora) = rf := by
          simpa using hrf
        subst hrf'
        by_cases hc : c = '/'
        · subst hc
          refine ⟨by simp [hLast], by simpa using hLast, rfl, ?_⟩
          intro net net' id dsname hagree
          simp only [remoteFedora.GetDatastream, contentPath]
          rw [hagree]
        · have hne : ¬(p.data.getLast? = some '/') := by
            rw [hLast]
            simp [hc]
          refine ⟨by simp [hc, hne], ?_, rfl, ?_⟩
          · show (if c ≠ '/' then p ++ "/" else p).data.getLast? = some '/'
            rw [if_pos hc, String.data_append]
            exact List.getLast?_concat _
          · intro net net' id dsname hagree
            simp only [remoteFedora.GetDatastream, contentPath]
            rw [hagree]

/-- Witness for C8 at the concrete base URL `"base"` (no trailing slash). -/
theorem c8_base_url_and_request_path_witness :
    (NewRemote "base" "n:").isSome = true
    ∧ ("base/" : String).data.getLast? = some '/' := by
  have h := c8_base_url_and_request_path "base" "n:"
  refine ⟨h.1 (by decide), ?_⟩
  exact (h.2 ⟨"base/", "n:"⟩ (by decide)).2.1

/-- C9: the in-memory store's composite key `id + "/" + dsname` is not
injective: the distinct pairs `("a", "b/c")` and `("a/b", "c")` share the
key, a `Set` under the first is observed by reads under the second, and a
later `Set` under the second overwrites the entry seen under the first. -/
theorem c9_composite_key_collision :
    (("a", "b/c") : String × String) ≠ ("a/b", "c")
    ∧ ("a" ++ "/" ++ "b/c" : String) = "a/b" ++ "/" ++ "c"
    ∧ ((NewTestFedora.Set "a" "b/c" {} [1, 2]).GetDatastream "a/b" "c").1 =
        some [1, 2]
    ∧ ((NewTestFedora.Set "a" "b/c" {} [1, 2]).GetDatastreamInfo "a/b" "c").2 = none
    ∧ (((NewTestFedora.Set "a" "b/c" {} [1, 2]).Set "a/b" "c" {} [9]).GetDatastream
        "a" "b/c").1 = some [9] := by
  refine ⟨by decide, by decide, by decide, by decide, by decide⟩

/-- C10: `NewRemote` is total only for non-empty base URLs: every non-empty
`fedoraPath` yields a client, while the empty string makes the Go code index
position `len - 1 = -1` of the string, an out-of-range fault (modelled as
`none`). -/
theorem c10_newremote_requires_nonempty_url (ns : String) :
    (∀ p : String, p ≠ "" → (NewRemote p ns).isSome) ∧ NewRemote "" ns = none := by
  constructor
  · intro p hp
    have hd : p.data ≠ [] := by
      intro h
      exact hp (by cases p with | mk l => simp_all)
    cases hLast : p.data.getLast? with
    | none => exact absurd (List.getLast?_eq_none_iff.mp hLast) hd
    | some c => simp [NewRemote, hLast]
  · rfl

/-- Witness for C10 at a concrete non-empty base URL. -/
theorem c10_newremote_requires_nonempty_url_witness :
    (NewRemote "http://h" "n:").isSome = true ∧ NewRemote "" "n:" = none :=
  ⟨(c10_newremote_requires_nonempty_url "n:").1 "http://h" (by decide),
   (c10_newremote_requires_nonempty_url "n:").2⟩
